import Mathlib

set_option maxRecDepth 100000

/-!
Verification of the session / live-connection manager of the
mcp-server-kubernetes repository, shallowly embedded in Lean 4.

Embedded components:
* `findAvailablePort` — the port allocator (utils/port scanning helper).
* `execInPod` — the exec_in_pod tool's control flow (context switching and
  stdout/stderr classification), from src/tools/exec_in_pod.ts.
* Context-listing parser — offset-based column slicing; modelled from the
  spec because the implementation file is not part of the provided sources.
* ResourceRegistry / SessionManager stop and cleanup — modelled from the
  spec for the same reason.
* Kubeconfig source resolution — modelled from the spec / documented
  priority order.

The OS/network environment (which local ports are occupied, what an exec
call writes on its streams) is abstracted as explicit parameters, so every
definition is executable on concrete inputs.
-/

namespace KubeMcp

/-! ## PortAllocator: findAvailablePort

Embedding of `findAvailablePort(startPort, maxRetries)`:
the environment is abstracted as `occupied : Nat → Bool` (binding a probe
listener to port `p` fails exactly when `occupied p`).  The source checks
`maxRetries <= 0` on entry and rejects; on a bind error it recurses with
`startPort + 1` and `maxRetries - 1`; on a successful bind it reads back
the bound port, closes the listener and resolves with that port. -/

def findAvailablePort (occupied : Nat → Bool) : Nat → Nat → Except String Nat
  | _, 0 => Except.error ("No available ports found within the retry limit.")
  | startPort, Nat.succ k =>
    if occupied startPort then
      findAvailablePort occupied (startPort + 1) k
    else
      Except.ok startPort

/-- Number of bind probes `findAvailablePort` performs: one for the first
port, plus the probes of the recursive call when that bind fails. -/
def findAvailablePortProbes (occupied : Nat → Bool) : Nat → Nat → Nat
  | _, 0 => 0
  | startPort, Nat.succ k =>
    if occupied startPort then
      1 + findAvailablePortProbes occupied (startPort + 1) k
    else
      1

/-! ## exec_in_pod (src/src/tools/exec_in_pod.ts)

The manager's context state is one mutable field; `setCurrentContext` is
modelled from the spec (ContextRegistry.setCurrent switches the active
context).  The exec call itself is environment: the bytes the command
wrote to the stdout/stderr collector streams, and whether the awaited
promise resolved (callback fired) or rejected (timeout or thrown error,
with the rejection message). -/

structure K8sManagerState where
  currentContext : String
deriving DecidableEq

/-- Modelled from the spec: `KubernetesManager.setCurrentContext` (the
manager implementation is not among the provided sources); per spec §4.2
`setCurrent(name)` makes `name` the active context. -/
def setCurrentContext (s : K8sManagerState) (ctx : String) : K8sManagerState :=
  { s with currentContext := ctx }

/-- Environment of one exec_in_pod invocation: output collected by the
stdout/stderr writable streams, and the outcome of the awaited exec
promise (`none` = the exec callback fired and the promise resolved;
`some m` = it rejected with message `m`, the timeout or thrown-error
path). -/
structure ExecEnv where
  stdout : String
  stderr : String
  promiseRejection : Option String
deriving DecidableEq

/-- The message the `McpError` carries on the no-output / stderr path of
exec_in_pod (line 179-184 of the source): `stderr || "No output"` wrapped
in the fixed `Failed to execute command in pod: ` text. -/
def execInPodInnerMsg (env : ExecEnv) : String :=
  "Failed to execute command in pod: " ++
    (if env.stderr ≠ "" then env.stderr else "No output")

/-- The catch-block rewrap of exec_in_pod (line 193-203): the caught
message, with stderr appended on a new line when non-empty, wrapped again
in the fixed `Failed to execute command in pod: ` text. -/
def execInPodCatchMsg (env : ExecEnv) (m : String) : String :=
  "Failed to execute command in pod: " ++
    (m ++ (if env.stderr ≠ "" then "\n" ++ env.stderr else ""))

/-- Embedding of `execInPod`'s observable control flow.  Returns the
result (`Except` models return vs throw) together with the manager state
after the call.  Mirrors the source: inside the `try`, the context is
switched first when `input.context` is truthy (a non-empty string); then
the exec promise is awaited; on resolution, any stderr output or the
absence of any output throws; the `catch` rewraps every thrown error; no
path restores the previous context. -/
def execInPod (mgr : K8sManagerState) (contextArg : Option String)
    (env : ExecEnv) : Except String String × K8sManagerState :=
  let mgr' := match contextArg with
    | some c => if c = "" then mgr else setCurrentContext mgr c
    | none => mgr
  match env.promiseRejection with
  | some m => (Except.error (execInPodCatchMsg env m), mgr')
  | none =>
    if env.stderr ≠ "" ∨ (env.stdout = "" ∧ env.stderr = "") then
      (Except.error (execInPodCatchMsg env (execInPodInnerMsg env)), mgr')
    else
      (Except.ok env.stdout, mgr')

/-! ## ContextRegistry: context-listing parser

Modelled from the spec: the implementation file of the `kubectl_context`
list operation is not among the provided sources (only its unit tests
are).  Per spec §4.2, column boundaries are computed once from the header
line (the starting character offset of each of the column names CURRENT,
NAME, CLUSTER, AUTHINFO, NAMESPACE), each subsequent non-empty line is
sliced by those fixed offsets and trimmed, the CURRENT column holds `*`
for exactly the active context, the namespace defaults to the fixed
string `default` when its column is empty, and a listing whose header
lacks the required columns raises `Invalid kubectl output format`.
Text is represented as `List Char`. -/

def splitOnChar (sep : Char) : List Char → List (List Char)
  | [] => [[]]
  | c :: cs =>
    if c = sep then [] :: splitOnChar sep cs
    else
      match splitOnChar sep cs with
      | [] => [[c]]
      | h :: t => (c :: h) :: t

/-- Remove leading and trailing whitespace, as `String.trim` does. -/
def trimChars (l : List Char) : List Char :=
  ((l.dropWhile Char.isWhitespace).reverse.dropWhile Char.isWhitespace).reverse

/-- First character offset at which `pat` occurs as a contiguous substring
(the `indexOf` of the header-offset computation); `none` when absent. -/
def indexOfSub (pat : List Char) : List Char → Option Nat
  | [] => none
  | c :: cs =>
    if List.isPrefixOf pat (c :: cs) then some 0
    else (indexOfSub pat cs).map (· + 1)

/-- The half-open character slice `[i, j)` of a line (`substring(i, j)`). -/
def sliceCols (i j : Nat) (l : List Char) : List Char :=
  (l.drop i).take (j - i)

structure KubeContext where
  name : List Char
  cluster : List Char
  user : List Char
  ns : List Char
  isCurrent : Bool
deriving DecidableEq

structure HeaderOffsets where
  currentIdx : Nat
  nameIdx : Nat
  clusterIdx : Nat
  authinfoIdx : Nat
  namespaceIdx : Nat
deriving DecidableEq

/-- Starting offsets of the five required column names in the header
line; `none` when any of them is missing. -/
def headerOffsets (header : List Char) : Option HeaderOffsets :=
  match indexOfSub (("CURRENT").toList) header,
        indexOfSub (("NAME").toList) header,
        indexOfSub (("CLUSTER").toList) header,
        indexOfSub (("AUTHINFO").toList) header,
        indexOfSub (("NAMESPACE").toList) header with
  | some ci, some ni, some cli, some ai, some nsi => some ⟨ci, ni, cli, ai, nsi⟩
  | _, _, _, _, _ => none

/-- Slice one data row by the header's fixed column offsets and trim each
field; the context is current exactly when the trimmed CURRENT field is
`*`, and an empty NAMESPACE field defaults to `default`. -/
def parseContextRow (off : HeaderOffsets) (line : List Char) : KubeContext :=
  let currentField := trimChars (sliceCols off.currentIdx off.nameIdx line)
  let nameField := trimChars (sliceCols off.nameIdx off.clusterIdx line)
  let clusterField := trimChars (sliceCols off.clusterIdx off.authinfoIdx line)
  let userField := trimChars (sliceCols off.authinfoIdx off.namespaceIdx line)
  let nsField := trimChars (line.drop off.namespaceIdx)
  { name := nameField
    cluster := clusterField
    user := userField
    ns := if nsField.isEmpty then (("default").toList) else nsField
    isCurrent := decide (currentField = ['*']) }

/-- The non-empty data rows of a context listing (everything after the
header line, skipping blank lines). -/
def dataRows (output : List Char) : List (List Char) :=
  match splitOnChar '\n' output with
  | [] => []
  | _ :: rest => rest.filter (fun l => !(trimChars l).isEmpty)

/-- The context-list operation: compute the column offsets from the
header line, then slice every non-empty data row by them.  A header
missing any required column is the `Invalid kubectl output format`
error. -/
def parseContexts (output : List Char) : Except (List Char) (List KubeContext) :=
  match splitOnChar '\n' output with
  | [] => Except.error (("Invalid kubectl output format").toList)
  | header :: rest =>
    match headerOffsets header with
    | none => Except.error (("Invalid kubectl output format").toList)
    | some off =>
      Except.ok ((rest.filter (fun l => !(trimChars l).isEmpty)).map
        (parseContextRow off))


/-! ## ResourceRegistry and SessionManager stop/cleanup

Modelled from the spec: the manager holding the registry is not among the
provided sources.  Per spec §4.4-§4.6: the registry maps unique ids to
closeable handles; `closeOne`/`closeAll` remove the entry before closing
so a second close of the same id is a guaranteed no-op; `closeAll` closes
entries independently and aggregates one outcome per id; stopping an
already-`Closed`/`Failed` session is a no-op success.  A handle's
`close()` outcome is data carried by the entry. -/

inductive SessionState
  | Pending
  | Active
  | Closing
  | Closed
  | Failed
deriving DecidableEq

structure ResourceEntry where
  id : Nat
  state : SessionState
  closeError : Option String
deriving DecidableEq

structure CloseResult where
  id : Nat
  ok : Bool
  error : Option String
deriving DecidableEq

/-- Close one handle and record the per-id outcome (`ok`, or the captured
close error). -/
def closeEntry (e : ResourceEntry) : CloseResult :=
  match e.closeError with
  | none => ⟨e.id, true, none⟩
  | some m => ⟨e.id, false, some m⟩

/-- Modelled from the spec: `closeAll` — close every registered handle,
independently (a failed close does not stop the iteration), returning the
per-id results and the registry left afterwards. -/
def closeAll : List ResourceEntry → List CloseResult × List ResourceEntry
  | [] => ([], [])
  | e :: rest =>
    let r := closeEntry e
    let p := closeAll rest
    (r :: p.1, p.2)

/-- Modelled from the spec: stopping a session that already reached
`Closed` or `Failed` is a no-op; otherwise the stop converges on
`Closed`. -/
def stopSession (s : ResourceEntry) : ResourceEntry :=
  if s.state = SessionState.Closed ∨ s.state = SessionState.Failed then s
  else { s with state := SessionState.Closed }

/-- Modelled from the spec: `stopForward` delegates to the registry's
`closeOne`: the entry is removed before its handle is closed, and a stop
for an id no longer registered (already stopped or cleaned up) is a no-op
success rather than an error.  Returns the reported success flag and the
registry after the call. -/
def stopForward (reg : List ResourceEntry) (i : Nat) :
    Bool × List ResourceEntry :=
  match reg.find? (fun e => e.id == i) with
  | some _ => (true, reg.filter (fun e => !(e.id == i)))
  | none => (true, reg)

/-! ## KubeconfigResolver

Modelled from the spec: the resolver is not among the provided sources;
spec §4.1 and the Authentication Options table of ADVANCED_README.md give
the fixed priority order 1 in-cluster, 2 inline YAML, 3 inline JSON,
4 minimal server+token, 5 file path, 6 default file; the first usable
source wins, a selected source that cannot be parsed is `Malformed`, and
no usable source at all is `NoSourceFound`. -/

inductive SourceState
  | absent
  | invalid
  | presentValid
  | presentMalformed
deriving DecidableEq

inductive ConfigError
  | NoSourceFound
  | Malformed
deriving DecidableEq

structure KubeconfigSources where
  inClusterSA : SourceState
  kubeconfigYaml : SourceState
  kubeconfigJson : SourceState
  serverToken : SourceState
  kubeconfigPath : SourceState
  defaultFile : SourceState
deriving DecidableEq

/-- The six sources in fixed priority order. -/
def sourceList (s : KubeconfigSources) : List SourceState :=
  [s.inClusterSA, s.kubeconfigYaml, s.kubeconfigJson, s.serverToken,
   s.kubeconfigPath, s.defaultFile]

/-- A source is usable when it is neither absent nor invalid. -/
def usable : SourceState → Bool
  | SourceState.absent => false
  | SourceState.invalid => false
  | SourceState.presentValid => true
  | SourceState.presentMalformed => true

/-- Modelled from the spec: scan the priority list from priority `k`,
skipping absent/invalid sources; the first present source is selected
(its priority is returned), failing with `Malformed` when it cannot be
parsed; an exhausted list is `NoSourceFound`. -/
def resolveFrom : List SourceState → Nat → Except ConfigError Nat
  | [], _ => Except.error ConfigError.NoSourceFound
  | SourceState.absent :: rest, k => resolveFrom rest (k + 1)
  | SourceState.invalid :: rest, k => resolveFrom rest (k + 1)
  | SourceState.presentValid :: _, k => Except.ok k
  | SourceState.presentMalformed :: _, _ =>
    Except.error ConfigError.Malformed

/-- `resolve()` — select the credential source, by priority 1..6. -/
def resolve (s : KubeconfigSources) : Except ConfigError Nat :=
  resolveFrom (sourceList s) 1

/-- A two-entry registry for concrete cleanup runs: one forward whose
close succeeds and one whose close fails. -/
def demoRegistry : List ResourceEntry :=
  [⟨1, SessionState.Active, none⟩,
   ⟨2, SessionState.Active, some ("close failed: bridge stuck")⟩]

/-! ### Concrete context listings (verbatim from the repository's unit
tests for the context parser: the PR #200 scenario, the missing-namespace
scenario, the malformed-header scenario, and the AWS EKS ARN scenario). -/

def pr200Output : List Char := ("CURRENT   NAME                         CLUSTER      AUTHINFO                     NAMESPACE\n          sre:srereadonly@elegang      elegang      elegang:sre:srereadonly      sre\n          sre:srereadonly@ohio         ohio         ohio:sre:srereadonly         sre\n*         sre:srereadonly@wuxi         wuxi         wuxi:sre:srereadonly         sre").toList

def missingNsOutput : List Char := ("CURRENT   NAME                         CLUSTER      AUTHINFO                     NAMESPACE\n          sre:admin@cluster-a          cluster-a    cluster-a:sre:admin          \n*         sre:user@cluster-b           cluster-b    cluster-b:sre:user           development").toList

def invalidHeaderOutput : List Char := ("INVALID   HEADER                       FORMAT\n          some-context                 some-cluster").toList

def eksOutput : List Char := ("CURRENT   NAME                                                          CLUSTER                    AUTHINFO                                                      NAMESPACE\n          arn:aws:eks:us-west-2:123456789:cluster/prod-cluster          prod-cluster               arn:aws:eks:us-west-2:123456789:cluster/prod-cluster          default\n*         arn:aws:eks:us-east-1:123456789:cluster/staging-cluster       staging-cluster            arn:aws:eks:us-east-1:123456789:cluster/staging-cluster       development").toList

end KubeMcp

namespace KubeMcp

/-! ### Shared lemmas: PortAllocator -/

theorem findAvailablePort_ok_bounds (occupied : Nat → Bool) :
    ∀ n p q, findAvailablePort occupied p n = Except.ok q →
      p ≤ q ∧ q < p + n ∧ occupied q = false ∧
        (∀ j, p ≤ j → j < q → occupied j = true) := by
  intro n
  induction n with
  | zero => intro p q h; simp [findAvailablePort] at h
  | succ k ih =>
    intro p q h
    rw [findAvailablePort] at h
    by_cases hp : occupied p
    · simp only [hp, if_true] at h
      obtain ⟨h1, h2, h3, h4⟩ := ih (p + 1) q h
      refine ⟨by omega, by omega, h3, ?_⟩
      intro j hj1 hj2
      rcases Nat.eq_or_lt_of_le hj1 with rfl | hlt
      · exact hp
      · exact h4 j hlt hj2
    · simp only [hp, if_false] at h
      cases h
      exact ⟨Nat.le_refl _, by omega, by simpa using hp, fun j hj1 hj2 => absurd hj1 (by omega)⟩

theorem findAvailablePort_exhaustion (occupied : Nat → Bool) :
    ∀ n p, (∀ i, i < n → occupied (p + i) = true) →
      findAvailablePort occupied p n =
        Except.error ("No available ports found within the retry limit.") := by
  intro n
  induction n with
  | zero => intro p _; rfl
  | succ k ih =>
    intro p hall
    rw [findAvailablePort]
    have h0 : occupied p = true := by simpa using hall 0 (Nat.succ_pos k)
    simp only [h0, if_true]
    exact ih (p + 1) (fun i hi => by
      have := hall (i + 1) (by omega)
      simpa [Nat.add_assoc, Nat.add_comm 1 i] using this)

theorem findAvailablePortProbes_le (occupied : Nat → Bool) :
    ∀ n p, findAvailablePortProbes occupied p n ≤ n := by
  intro n
  induction n with
  | zero => intro p; exact Nat.le_refl 0
  | succ k ih =>
    intro p
    rw [findAvailablePortProbes]
    cases hp : occupied p
    · simp
    · have := ih (p + 1)
      simp only [if_true]
      omega

/-- C2: for every startPort `p` and retry budget `n`, `findAvailablePort`
either succeeds with a port in the half-open interval `[p, p + n)` — the
first free port, having probed `p, p + 1, ...` in order — or, when every
port of that range is occupied, rejects with the port-exhaustion message
`No available ports found within the retry limit.`. -/
theorem C2_findAvailablePort_range_or_exhaustion (occupied : Nat → Bool)
    (p n : Nat) :
    (∀ q, findAvailablePort occupied p n = Except.ok q →
      p ≤ q ∧ q < p + n ∧ occupied q = false ∧
        (∀ j, p ≤ j → j < q → occupied j = true)) ∧
    ((∀ i, i < n → occupied (p + i) = true) →
      findAvailablePort occupied p n =
        Except.error ("No available ports found within the retry limit.")) :=
  ⟨fun q h => findAvailablePort_ok_bounds occupied n p q h,
   findAvailablePort_exhaustion occupied n p⟩

theorem C2_findAvailablePort_range_or_exhaustion_witness :
    (0 ≤ 3 ∧ 3 < 0 + 5) ∧
    findAvailablePort (fun q => decide (q < 3)) 0 2 =
      Except.error ("No available ports found within the retry limit.") :=
  ⟨⟨((C2_findAvailablePort_range_or_exhaustion (fun q => decide (q < 3)) 0 5).1
      3 rfl).1,
    ((C2_findAvailablePort_range_or_exhaustion (fun q => decide (q < 3)) 0 5).1
      3 rfl).2.1⟩,
   (C2_findAvailablePort_range_or_exhaustion (fun q => decide (q < 3)) 0 2).2
     (by decide)⟩

/-- C6: `findAvailablePort` terminates on every input: the retry budget
strictly decreases on each failed bind, a budget of `0` is rejected
immediately, and at most `n` bind probes are performed for budget `n`. -/
theorem C6_findAvailablePort_bounded_probes (occupied : Nat → Bool)
    (p n : Nat) :
    findAvailablePortProbes occupied p n ≤ n ∧
    findAvailablePort occupied p 0 =
      Except.error ("No available ports found within the retry limit.") ∧
    (occupied p = true →
      findAvailablePort occupied p (n + 1) =
        findAvailablePort occupied (p + 1) n) :=
  ⟨findAvailablePortProbes_le occupied n p, rfl, fun hp => by
    rw [findAvailablePort]
    simp [hp]⟩

theorem C6_findAvailablePort_bounded_probes_witness :
    findAvailablePortProbes (fun q => decide (q < 3)) 0 100 ≤ 100 ∧
    findAvailablePort (fun q => decide (q < 3)) 0 (7 + 1) =
      findAvailablePort (fun q => decide (q < 3)) 1 7 :=
  ⟨(C6_findAvailablePort_bounded_probes (fun q => decide (q < 3)) 0 100).1,
   (C6_findAvailablePort_bounded_probes (fun q => decide (q < 3)) 0 7).2.2
     (by decide)⟩

/-! ### Theorems: ContextRegistry parser -/

theorem parseContexts_ok_eq (output header : List Char)
    (rest : List (List Char)) (off : HeaderOffsets) (ctxs : List KubeContext)
    (hsplit : splitOnChar '\n' output = header :: rest)
    (hoff : headerOffsets header = some off)
    (hok : parseContexts output = Except.ok ctxs) :
    ctxs = (rest.filter (fun l => !(trimChars l).isEmpty)).map
      (parseContextRow off) := by
  unfold parseContexts at hok
  rw [hsplit] at hok
  simp only [hoff] at hok
  exact (Except.ok.inj hok).symm

theorem dataRows_eq (output header : List Char) (rest : List (List Char))
    (hsplit : splitOnChar '\n' output = header :: rest) :
    dataRows output = rest.filter (fun l => !(trimChars l).isEmpty) := by
  unfold dataRows
  rw [hsplit]

/-- C1: whenever the context-list operation succeeds, the returned
context names are byte-identical to the trimmed NAME-column slice
(between the header's NAME and CLUSTER offsets) of each data row — names
with embedded `:` and `@` are never split — and when exactly one row
carries `*` in its CURRENT-column slice, exactly one returned context has
`isCurrent = true`. -/
theorem C1_list_names_byte_identical_and_unique_current
    (output header : List Char) (rest : List (List Char))
    (off : HeaderOffsets) (ctxs : List KubeContext)
    (hsplit : splitOnChar '\n' output = header :: rest)
    (hoff : headerOffsets header = some off)
    (hok : parseContexts output = Except.ok ctxs) :
    ctxs.map KubeContext.name =
      (dataRows output).map
        (fun l => trimChars (sliceCols off.nameIdx off.clusterIdx l)) ∧
    ((dataRows output).countP
        (fun l =>
          decide (trimChars (sliceCols off.currentIdx off.nameIdx l) = ['*'])) = 1 →
      ctxs.countP (fun c => c.isCurrent) = 1) := by
  have hctxs := parseContexts_ok_eq output header rest off ctxs hsplit hoff hok
  have hrows := dataRows_eq output header rest hsplit
  constructor
  · rw [hctxs, hrows, List.map_map]
    rfl
  · intro h1
    rw [hctxs, List.countP_map]
    rw [hrows] at h1
    exact h1

theorem C1_list_names_byte_identical_and_unique_current_witness :
    (((parseContexts pr200Output).toOption.getD []).map KubeContext.name =
      (dataRows pr200Output).map (fun l => trimChars (sliceCols 10 39 l)) ∧
     ((parseContexts pr200Output).toOption.getD []).countP
       (fun c => c.isCurrent) = 1) ∧
    ((parseContexts pr200Output).toOption.getD []).map KubeContext.name =
      [("sre:srereadonly@elegang").toList, ("sre:srereadonly@ohio").toList,
       ("sre:srereadonly@wuxi").toList] ∧
    (((parseContexts eksOutput).toOption.getD []).map KubeContext.name =
      (dataRows eksOutput).map (fun l => trimChars (sliceCols 10 72 l)) ∧
     ((parseContexts eksOutput).toOption.getD []).map KubeContext.name =
      [("arn:aws:eks:us-west-2:123456789:cluster/prod-cluster").toList,
       ("arn:aws:eks:us-east-1:123456789:cluster/staging-cluster").toList]) :=
  ⟨⟨(C1_list_names_byte_identical_and_unique_current pr200Output
      ((splitOnChar '\n' pr200Output).headD [])
      ((splitOnChar '\n' pr200Output).tail) ⟨0, 10, 39, 52, 81⟩
      ((parseContexts pr200Output).toOption.getD []) rfl rfl rfl).1,
    (C1_list_names_byte_identical_and_unique_current pr200Output
      ((splitOnChar '\n' pr200Output).headD [])
      ((splitOnChar '\n' pr200Output).tail) ⟨0, 10, 39, 52, 81⟩
      ((parseContexts pr200Output).toOption.getD []) rfl rfl rfl).2
      (by decide)⟩,
   by decide,
   ⟨(C1_list_names_byte_identical_and_unique_current eksOutput
      ((splitOnChar '\n' eksOutput).headD [])
      ((splitOnChar '\n' eksOutput).tail) ⟨0, 10, 72, 99, 161⟩
      ((parseContexts eksOutput).toOption.getD []) rfl rfl rfl).1,
    by decide⟩⟩

/-- C7: a context listing whose header line lacks any of the required
column names (CURRENT, NAME, CLUSTER, AUTHINFO, NAMESPACE) makes the
list operation fail with `Invalid kubectl output format` instead of
returning contexts. -/
theorem C7_missing_columns_invalid_format
    (output header : List Char) (rest : List (List Char))
    (hsplit : splitOnChar '\n' output = header :: rest)
    (hmiss : indexOfSub (("CURRENT").toList) header = none ∨
             indexOfSub (("NAME").toList) header = none ∨
             indexOfSub (("CLUSTER").toList) header = none ∨
             indexOfSub (("AUTHINFO").toList) header = none ∨
             indexOfSub (("NAMESPACE").toList) header = none) :
    parseContexts output =
      Except.error (("Invalid kubectl output format").toList) := by
  have hnone : headerOffsets header = none := by
    unfold headerOffsets
    split
    · rename_i h1 h2 h3 h4 h5
      rcases hmiss with h | h | h | h | h <;> simp_all
    · rfl
  unfold parseContexts
  rw [hsplit]
  simp only [hnone]

theorem C7_missing_columns_invalid_format_witness :
    parseContexts invalidHeaderOutput =
      Except.error (("Invalid kubectl output format").toList) :=
  C7_missing_columns_invalid_format invalidHeaderOutput
    ((splitOnChar '\n' invalidHeaderOutput).headD [])
    ((splitOnChar '\n' invalidHeaderOutput).tail) rfl
    (Or.inl (by decide))

/-- C8: every parsed context row is current exactly when the trimmed
CURRENT-column slice is `*`; a row whose NAMESPACE-column slice trims to
empty yields the fixed namespace `default`, so the namespace field is
never empty. -/
theorem C8_current_marker_and_default_namespace
    (output header : List Char) (rest : List (List Char))
    (off : HeaderOffsets) (ctxs : List KubeContext) (l : List Char)
    (hsplit : splitOnChar '\n' output = header :: rest)
    (hoff : headerOffsets header = some off)
    (hok : parseContexts output = Except.ok ctxs)
    (hl : l ∈ dataRows output) :
    parseContextRow off l ∈ ctxs ∧
    ((parseContextRow off l).isCurrent = true ↔
      trimChars (sliceCols off.currentIdx off.nameIdx l) = ['*']) ∧
    (trimChars (l.drop off.namespaceIdx) = [] →
      (parseContextRow off l).ns = (("default").toList)) ∧
    (parseContextRow off l).ns ≠ [] := by
  have hctxs := parseContexts_ok_eq output header rest off ctxs hsplit hoff hok
  have hrows := dataRows_eq output header rest hsplit
  refine ⟨?_, ?_, ?_, ?_⟩
  · rw [hctxs]
    rw [hrows] at hl
    exact List.mem_map_of_mem (parseContextRow off) hl
  · simp [parseContextRow]
  · intro h0
    simp [parseContextRow, h0]
  · by_cases h0 : (trimChars (l.drop off.namespaceIdx)).isEmpty
    · simp [parseContextRow, h0]
    · simp only [parseContextRow, h0]
      simp only [Bool.false_eq_true, if_false]
      intro hc
      rw [hc] at h0
      simp at h0

theorem C8_current_marker_and_default_namespace_witness :
    parseContextRow ⟨0, 10, 39, 52, 81⟩
        ((dataRows missingNsOutput).headD []) ∈
      ((parseContexts missingNsOutput).toOption.getD []) ∧
    ((parseContextRow ⟨0, 10, 39, 52, 81⟩
        ((dataRows missingNsOutput).headD [])).isCurrent = true ↔
      trimChars (sliceCols 0 10 ((dataRows missingNsOutput).headD [])) = ['*']) ∧
    (trimChars (((dataRows missingNsOutput).headD []).drop 81) = [] →
      (parseContextRow ⟨0, 10, 39, 52, 81⟩
        ((dataRows missingNsOutput).headD [])).ns = (("default").toList)) ∧
    (parseContextRow ⟨0, 10, 39, 52, 81⟩
        ((dataRows missingNsOutput).headD [])).ns ≠ [] :=
  C8_current_marker_and_default_namespace missingNsOutput
    ((splitOnChar '\n' missingNsOutput).headD [])
    ((splitOnChar '\n' missingNsOutput).tail) ⟨0, 10, 39, 52, 81⟩
    ((parseContexts missingNsOutput).toOption.getD [])
    ((dataRows missingNsOutput).headD []) rfl rfl rfl (by decide)

/-! ### Theorems: exec_in_pod -/

/-- C9: whenever exec_in_pod is invoked with a non-empty context argument,
the manager's current context after the call equals that argument, on
every path (success, classification failure, timeout, thrown error) — the
switch is performed before the exec and never restored. -/
theorem C9_execInPod_context_switch_persists (mgr : K8sManagerState)
    (c : String) (env : ExecEnv) (h : c ≠ "") :
    (execInPod mgr (some c) env).2.currentContext = c := by
  unfold execInPod
  cases env.promiseRejection with
  | none =>
    by_cases hcl : env.stderr ≠ "" ∨ (env.stdout = "" ∧ env.stderr = "")
    · simp [hcl, h, setCurrentContext]
    · simp [hcl, h, setCurrentContext]
  | some m => simp [h, setCurrentContext]

theorem C9_execInPod_context_switch_persists_witness :
    (execInPod ⟨"minikube"⟩ (some ("prod-cluster"))
        ⟨"", "",
         some ("Exec operation timed out (possible networking, RBAC, or cluster issue)")⟩).2.currentContext
      = "prod-cluster" :=
  C9_execInPod_context_switch_persists ⟨"minikube"⟩ ("prod-cluster")
    ⟨"", "",
     some ("Exec operation timed out (possible networking, RBAC, or cluster issue)")⟩
    (by decide)

/-- C10: exec_in_pod returns successfully only when the command wrote
something to stdout and nothing to stderr.  When the exec completes with
empty stdout and empty stderr, the classification site throws exactly
`Failed to execute command in pod: No output` (which the catch block
rewraps); any non-empty stderr likewise forces a throw even though the
exec completed. -/
theorem C10_execInPod_output_classification (mgr : K8sManagerState)
    (ca : Option String) (env : ExecEnv) :
    (env.promiseRejection = none → env.stdout = "" → env.stderr = "" →
      (execInPod mgr ca env).1 =
        Except.error (execInPodCatchMsg env (execInPodInnerMsg env)) ∧
      execInPodInnerMsg env = "Failed to execute command in pod: No output") ∧
    (env.promiseRejection = none → env.stderr ≠ "" →
      (execInPod mgr ca env).1 =
        Except.error (execInPodCatchMsg env (execInPodInnerMsg env))) ∧
    (∀ out, (execInPod mgr ca env).1 = Except.ok out →
      out = env.stdout ∧ env.stdout ≠ "" ∧ env.stderr = "" ∧
        env.promiseRejection = none) := by
  refine ⟨?_, ?_, ?_⟩
  · intro hpr h1 h2
    constructor
    · unfold execInPod
      rw [hpr]
      simp [h1, h2]
    · unfold execInPodInnerMsg
      simp [h2]
  · intro hpr h2
    unfold execInPod
    rw [hpr]
    simp [h2]
  · intro out h
    unfold execInPod at h
    cases hpr : env.promiseRejection with
    | some m => rw [hpr] at h; simp at h
    | none =>
      rw [hpr] at h
      by_cases hcl : env.stderr ≠ "" ∨ (env.stdout = "" ∧ env.stderr = "")
      · simp [hcl] at h
      · simp [hcl] at h
        push_neg at hcl
        refine ⟨h.symm, fun h0 => ?_, hcl.1, rfl⟩
        exact (hcl.2 h0) hcl.1

theorem C10_execInPod_output_classification_witness :
    ((execInPod ⟨"minikube"⟩ none ⟨"", "", none⟩).1 =
      Except.error (execInPodCatchMsg ⟨"", "", none⟩
        (execInPodInnerMsg ⟨"", "", none⟩)) ∧
     execInPodInnerMsg ⟨"", "", none⟩ =
       "Failed to execute command in pod: No output") ∧
    (execInPod ⟨"minikube"⟩ none ⟨"ok-output", "permission denied", none⟩).1 =
      Except.error (execInPodCatchMsg ⟨"ok-output", "permission denied", none⟩
        (execInPodInnerMsg ⟨"ok-output", "permission denied", none⟩)) :=
  ⟨(C10_execInPod_output_classification ⟨"minikube"⟩ none ⟨"", "", none⟩).1
     rfl rfl rfl,
   (C10_execInPod_output_classification ⟨"minikube"⟩ none
     ⟨"ok-output", "permission denied", none⟩).2.1 rfl (by decide)⟩

/-! ### Theorems: ResourceRegistry cleanup and stop -/

/-- C3: `cleanupAll` over `k` registered forwards returns exactly `k`
per-id results — the ids in registration order, each marked ok or
carrying its close error, a failing close never blocking the rest — and
leaves the registry empty. -/
theorem C3_cleanupAll_closes_all (reg : List ResourceEntry) :
    (closeAll reg).1.length = reg.length ∧
    (closeAll reg).1.map CloseResult.id = reg.map ResourceEntry.id ∧
    (∀ r, r ∈ (closeAll reg).1 → (r.ok = true ∨ r.error.isSome = true)) ∧
    (closeAll reg).2 = [] := by
  induction reg with
  | nil => exact ⟨rfl, rfl, fun r hr => absurd hr (List.not_mem_nil r), rfl⟩
  | cons e rest ih =>
    refine ⟨?_, ?_, ?_, ?_⟩
    · simpa [closeAll] using ih.1
    · have : (closeEntry e).id = e.id := by
        cases h : e.closeError <;> simp [closeEntry, h]
      simpa [closeAll, this] using ih.2.1
    · intro r hr
      simp only [closeAll, List.mem_cons] at hr
      rcases hr with rfl | hr
      · cases h : e.closeError <;> simp [closeEntry, h]
      · exact ih.2.2.1 r hr
    · simpa [closeAll] using ih.2.2.2

theorem C3_cleanupAll_closes_all_witness :
    (closeAll demoRegistry).1.length = demoRegistry.length ∧
    (closeAll demoRegistry).2 = [] ∧
    ((⟨2, false, some ("close failed: bridge stuck")⟩ : CloseResult).ok = true ∨
     (⟨2, false, some ("close failed: bridge stuck")⟩ : CloseResult).error.isSome
       = true) :=
  ⟨(C3_cleanupAll_closes_all demoRegistry).1,
   (C3_cleanupAll_closes_all demoRegistry).2.2.2,
   (C3_cleanupAll_closes_all demoRegistry).2.2.1
     ⟨2, false, some ("close failed: bridge stuck")⟩ (by decide)⟩

theorem stopForward_reports_ok (reg : List ResourceEntry) (i : Nat) :
    (stopForward reg i).1 = true := by
  unfold stopForward
  cases reg.find? (fun e => e.id == i) <;> rfl

theorem stopForward_clears_id (reg : List ResourceEntry) (i : Nat) :
    (stopForward reg i).2.countP (fun e => e.id == i) = 0 := by
  unfold stopForward
  cases h : reg.find? (fun e => e.id == i) with
  | none =>
    simp only
    rw [List.countP_eq_zero]
    intro e he
    exact List.find?_eq_none.mp h e he
  | some e0 =>
    simp only
    rw [List.countP_eq_zero]
    intro e he
    rw [List.mem_filter] at he
    have h2 := he.2
    simp only [Bool.not_eq_true'] at h2
    simp [h2]

/-- C4: `stopForward` is idempotent: two stops of the same id in sequence
both report success, zero registry entries for that id remain afterwards,
and stopping a session already in state `Closed` or `Failed` is a no-op.
-/
theorem C4_stopForward_idempotent (reg : List ResourceEntry) (i : Nat) :
    (stopForward reg i).1 = true ∧
    (stopForward (stopForward reg i).2 i).1 = true ∧
    (stopForward (stopForward reg i).2 i).2.countP (fun e => e.id == i) = 0 ∧
    ∀ s : ResourceEntry,
      s.state = SessionState.Closed ∨ s.state = SessionState.Failed →
        stopSession s = s :=
  ⟨stopForward_reports_ok reg i,
   stopForward_reports_ok (stopForward reg i).2 i,
   stopForward_clears_id (stopForward reg i).2 i,
   fun s hs => by simp [stopSession, hs]⟩

theorem C4_stopForward_idempotent_witness :
    (stopForward demoRegistry 2).1 = true ∧
    (stopForward (stopForward demoRegistry 2).2 2).1 = true ∧
    (stopForward (stopForward demoRegistry 2).2 2).2.countP
      (fun e => e.id == 2) = 0 ∧
    stopSession ⟨7, SessionState.Failed, none⟩ =
      (⟨7, SessionState.Failed, none⟩ : ResourceEntry) :=
  ⟨(C4_stopForward_idempotent demoRegistry 2).1,
   (C4_stopForward_idempotent demoRegistry 2).2.1,
   (C4_stopForward_idempotent demoRegistry 2).2.2.1,
   (C4_stopForward_idempotent demoRegistry 2).2.2.2
     ⟨7, SessionState.Failed, none⟩ (Or.inr rfl)⟩

/-! ### Theorems: KubeconfigResolver -/

theorem resolveFrom_ok (l : List SourceState) :
    ∀ k i, resolveFrom l k = Except.ok i →
      k ≤ i ∧ i < k + l.length ∧
      l.getD (i - k) SourceState.absent = SourceState.presentValid ∧
      ∀ j, j < i - k → usable (l.getD j SourceState.absent) = false := by
  induction l with
  | nil => intro k i h; exact Except.noConfusion h
  | cons st rest ih =>
    intro k i h
    cases st with
    | presentValid =>
      rw [resolveFrom] at h
      cases h
      exact ⟨Nat.le_refl _, by simp only [List.length_cons]; omega,
        by simp, fun j hj => absurd hj (by omega)⟩
    | presentMalformed =>
      rw [resolveFrom] at h
      exact Except.noConfusion h
    | absent =>
      rw [resolveFrom] at h
      obtain ⟨h1, h2, h3, h4⟩ := ih (k + 1) i h
      refine ⟨by omega, by simp only [List.length_cons]; omega, ?_, ?_⟩
      · have hik : i - k = (i - (k + 1)) + 1 := by omega
        rw [hik, List.getD_cons_succ]
        exact h3
      · intro j hj
        cases j with
        | zero => rfl
        | succ j' =>
          rw [List.getD_cons_succ]
          exact h4 j' (by omega)
    | invalid =>
      rw [resolveFrom] at h
      obtain ⟨h1, h2, h3, h4⟩ := ih (k + 1) i h
      refine ⟨by omega, by simp only [List.length_cons]; omega, ?_, ?_⟩
      · have hik : i - k = (i - (k + 1)) + 1 := by omega
        rw [hik, List.getD_cons_succ]
        exact h3
      · intro j hj
        cases j with
        | zero => rfl
        | succ j' =>
          rw [List.getD_cons_succ]
          exact h4 j' (by omega)

theorem resolveFrom_noSource (l : List SourceState) :
    ∀ k, (∀ st, st ∈ l → usable st = false) →
      resolveFrom l k = Except.error ConfigError.NoSourceFound := by
  induction l with
  | nil => intro k _; rfl
  | cons st rest ih =>
    intro k hall
    have hst := hall st (List.mem_cons_self st rest)
    cases st with
    | absent =>
      rw [resolveFrom]
      exact ih (k + 1) (fun s hs => hall s (List.mem_cons_of_mem _ hs))
    | invalid =>
      rw [resolveFrom]
      exact ih (k + 1) (fun s hs => hall s (List.mem_cons_of_mem _ hs))
    | presentValid => simp [usable] at hst
    | presentMalformed => simp [usable] at hst

theorem resolveFrom_malformed (l : List SourceState) :
    ∀ k i, i < l.length →
      (∀ j, j < i → usable (l.getD j SourceState.absent) = false) →
      l.getD i SourceState.absent = SourceState.presentMalformed →
      resolveFrom l k = Except.error ConfigError.Malformed := by
  induction l with
  | nil =>
    intro k i h _ _
    exact absurd h (by simp)
  | cons st rest ih =>
    intro k i hlen hpre hmal
    cases i with
    | zero =>
      simp only [List.getD_cons_zero] at hmal
      rw [hmal, resolveFrom]
    | succ i' =>
      have h0 : usable st = false := by
        simpa using hpre 0 (Nat.succ_pos i')
      rw [List.getD_cons_succ] at hmal
      cases st with
      | absent =>
        rw [resolveFrom]
        exact ih (k + 1) i' (by simpa using hlen)
          (fun j hj => by simpa using hpre (j + 1) (by omega)) hmal
      | invalid =>
        rw [resolveFrom]
        exact ih (k + 1) i' (by simpa using hlen)
          (fun j hj => by simpa using hpre (j + 1) (by omega)) hmal
      | presentValid => simp [usable] at h0
      | presentMalformed => simp [usable] at h0

/-- C5: `resolve()` selects priority `i` of the fixed order (1 in-cluster,
2 inline YAML, 3 inline JSON, 4 server+token, 5 file path, 6 default
file) only when every higher-priority source is absent or invalid; when
no source is usable it fails with `NoSourceFound`; when the selected
source cannot be parsed it fails with `Malformed`. -/
theorem C5_resolve_priority (s : KubeconfigSources) :
    (∀ i, resolve s = Except.ok i →
      1 ≤ i ∧ i ≤ 6 ∧
      (sourceList s).getD (i - 1) SourceState.absent =
        SourceState.presentValid ∧
      ∀ j, j < i - 1 →
        usable ((sourceList s).getD j SourceState.absent) = false) ∧
    ((∀ st, st ∈ sourceList s → usable st = false) →
      resolve s = Except.error ConfigError.NoSourceFound) ∧
    (∀ i, 1 ≤ i → i ≤ 6 →
      (∀ j, j < i - 1 →
        usable ((sourceList s).getD j SourceState.absent) = false) →
      (sourceList s).getD (i - 1) SourceState.absent =
        SourceState.presentMalformed →
      resolve s = Except.error ConfigError.Malformed) := by
  refine ⟨?_, ?_, ?_⟩
  · intro i h
    obtain ⟨h1, h2, h3, h4⟩ := resolveFrom_ok (sourceList s) 1 i h
    have hlen : (sourceList s).length = 6 := rfl
    rw [hlen] at h2
    exact ⟨h1, by omega, h3, h4⟩
  · intro hall
    exact resolveFrom_noSource (sourceList s) 1 hall
  · intro i h1 h6 hpre hmal
    have hlen : (sourceList s).length = 6 := rfl
    exact resolveFrom_malformed (sourceList s) 1 (i - 1)
      (by rw [hlen]; omega) hpre hmal

theorem C5_resolve_priority_witness :
    (resolve ⟨SourceState.absent, SourceState.invalid, SourceState.presentValid,
        SourceState.absent, SourceState.absent, SourceState.absent⟩ =
      Except.ok 3 ∧
     (sourceList ⟨SourceState.absent, SourceState.invalid,
        SourceState.presentValid, SourceState.absent, SourceState.absent,
        SourceState.absent⟩).getD 2 SourceState.absent =
       SourceState.presentValid) ∧
    resolve ⟨SourceState.absent, SourceState.invalid, SourceState.absent,
        SourceState.absent, SourceState.absent, SourceState.invalid⟩ =
      Except.error ConfigError.NoSourceFound ∧
    resolve ⟨SourceState.absent, SourceState.invalid,
        SourceState.presentMalformed, SourceState.presentValid,
        SourceState.absent, SourceState.absent⟩ =
      Except.error ConfigError.Malformed :=
  ⟨⟨rfl,
    ((C5_resolve_priority ⟨SourceState.absent, SourceState.invalid,
        SourceState.presentValid, SourceState.absent, SourceState.absent,
        SourceState.absent⟩).1 3 rfl).2.2.1⟩,
   (C5_resolve_priority ⟨SourceState.absent, SourceState.invalid,
      SourceState.absent, SourceState.absent, SourceState.absent,
      SourceState.invalid⟩).2.1 (by decide),
   (C5_resolve_priority ⟨SourceState.absent, SourceState.invalid,
      SourceState.presentMalformed, SourceState.presentValid,
      SourceState.absent, SourceState.absent⟩).2.2 3 (by decide) (by decide)
     (by decide) rfl⟩

end KubeMcp
